import Mathlib

/-!
# Verification of the capture-and-normalize pipeline of `stats_engine.py`

A shallow embedding of the pure transformation core of the repository:

* `locate` models `_extract_full_match_stats_and_moves` (payload location by
  URL signature).
* `normalize` models `_build_dataframes` (construction of the five datasets:
  global summary, team statistics, player statistics, timeline, and the
  minute-by-minute series).

Modelling conventions: Python numbers coming from the JSON payloads are
modelled as `Int`; derived columns produced by division (`% shots 1`, the raw
`Val` sum) are modelled as `ℚ`, which evaluates Python float arithmetic
exactly on the values the claims exercise.  Dictionary `.get` accesses whose
absence matters to a claim are modelled with `Option`; fields the code indexes
directly (so their absence would be a `KeyError` outside every claim) are
modelled as present.  Python string operations are modelled structurally on
`List Char` (decimal digits as ASCII).  Fallible code lands in
`Except`/`Option`: `int(...)`, `strptime`, payload location, and the two
pandas failure modes of `_build_dataframes` — the `"% shots 1"` column
assignment on a playerless frame and the `Minute` coercion on an empty
timeline frame, both of which abort the run.
-/

namespace StatsEngine

/-! ### Models of the Python string primitives used by the engine -/

/-- `seqStartsWith p l` : the character list `l` starts with the pattern `p`. -/
def seqStartsWith : List Char → List Char → Bool
  | [], _ => true
  | _ :: _, [] => false
  | p :: ps, c :: cs => p == c && seqStartsWith ps cs

/-- Model of Python's substring test `pat in s` on character lists. -/
def containsSeq (pat : List Char) : List Char → Bool
  | [] => pat.isEmpty
  | c :: cs => seqStartsWith pat (c :: cs) || containsSeq pat cs

/-- Model of Python's `s.split(sep)` for a one-character separator. -/
def splitOnChar (sep : Char) : List Char → List (List Char)
  | [] => [[]]
  | c :: cs =>
    match splitOnChar sep cs with
    | [] => [[]]
    | p :: ps => if c == sep then [] :: p :: ps else (c :: p) :: ps

/-- Drop leading whitespace characters. -/
def dropWhileWs : List Char → List Char
  | [] => []
  | c :: cs => if c.isWhitespace then dropWhileWs cs else c :: cs

/-- Model of Python's `s.strip()`. -/
def trimChars (l : List Char) : List Char :=
  (dropWhileWs (dropWhileWs l).reverse).reverse

/-- Numeric value of a digit string (caller guarantees all digits). -/
def digitsVal (l : List Char) : Nat :=
  l.foldl (fun a c => a * 10 + (c.toNat - '0'.toNat)) 0

/-- Model of Python's `int(s)` on a string: optional sign followed by one or
more decimal digits, surrounding whitespace ignored; `none` models the
`ValueError` that `int` raises on anything else. -/
def parseIntChars (l : List Char) : Option Int :=
  match trimChars l with
  | [] => none
  | c :: cs =>
    if c == '-' then
      if cs.isEmpty then none
      else if cs.all Char.isDigit then some (-(digitsVal cs : Int)) else none
    else if c == '+' then
      if cs.isEmpty then none
      else if cs.all Char.isDigit then some ((digitsVal cs : Int)) else none
    else
      if (c :: cs).all Char.isDigit then some ((digitsVal (c :: cs) : Int))
      else none

/-! ### Payload data model (the JSON trees the engine reads) -/

/-- One aggregate statistics block (a team's `"data"` dict, one entry of a
team's `"periods"` list, or a player's `"data"` dict). -/
structure StatBlock where
  score : Int
  valoration : Int
  shotsOfOneAttempted : Int
  shotsOfOneSuccessful : Int
  shotsOfTwoAttempted : Int
  shotsOfTwoSuccessful : Int
  shotsOfThreeAttempted : Int
  shotsOfThreeSuccessful : Int
  rebounds : Int
  assists : Int
  steals : Int
  block : Int
  lost : Int
  faults : Int
deriving DecidableEq

/-- All-zero statistics block, used where a concrete example needs one. -/
def zeroBlock : StatBlock := ⟨0, 0, 0, 0, 0, 0, 0, 0, 0, 0, 0, 0, 0, 0⟩

/-- One entry of a player's `"periods"` list; the engine only reads
`p.get("faults", 0)` from it. -/
structure PlayerPeriod where
  faults : Int
deriving DecidableEq

/-- One entry of a team's `"players"` list. -/
structure PlayerPayload where
  actorId : Int
  name : String
  dorsal : Int
  timePlayed : Int
  data : StatBlock
  periods : List PlayerPeriod
deriving DecidableEq

/-- One entry of the stats payload's `"teams"` list. -/
structure TeamPayload where
  teamIdIntern : Int
  name : String
  data : StatBlock
  periods : List StatBlock
  players : List PlayerPayload
deriving DecidableEq

/-- The full-match statistics payload (`getJsonWithMatchStats`). -/
structure StatsPayload where
  idMatchIntern : Option Int
  time : Option String
  periodDurationList : List Int
  periodDuration : Option Int
  period : Option Int
  teams : List TeamPayload
deriving DecidableEq

/-- The value of a move's `"score"` field: a string, or some non-string JSON
value (number, list, ...). -/
inductive ScoreField where
  | str (s : String)
  | nonStr
deriving DecidableEq

/-- The value of a move's `"min"` field. -/
inductive MinField where
  | num (n : Int)
  | str (s : String)
  | other
deriving DecidableEq

/-- One entry of the moves payload (`getJsonWithMatchMoves`). -/
structure MovePayload where
  idTeam : Option Int
  actorName : Option String
  move : Option String
  min : Option MinField
  period : Option Int
  score : Option ScoreField
deriving DecidableEq

/-! ### Payload location (`_extract_full_match_stats_and_moves`) -/

/-- URL signature of the statistics payload. -/
def statsSig : String := "getJsonWithMatchStats"

/-- URL signature of the moves payload. -/
def movesSig : String := "getJsonWithMatchMoves"

/-- A captured network response: URL plus parsed JSON body. -/
structure Resp (α : Type) where
  url : String
  jsonData : α
deriving DecidableEq

/-- The two `RuntimeError`s raised when a payload is never matched. -/
inductive LocateError where
  | missingStats
  | missingMoves
deriving DecidableEq

/-- Loop body of the location scan: the `if "getJsonWithMatchStats" in url`
/ `elif "getJsonWithMatchMoves" in url` update of the two result slots. -/
def locateStep {α : Type} (acc : Option α × Option α) (r : Resp α) :
    Option α × Option α :=
  if containsSeq statsSig.data r.url.data then (some r.jsonData, acc.2)
  else if containsSeq movesSig.data r.url.data then (acc.1, some r.jsonData)
  else acc

/-- Model of `_extract_full_match_stats_and_moves`: one scan over the captured
responses keeping the payloads selected by the loop, then the two `None`
checks (stats first). -/
def locate {α : Type} (rs : List (Resp α)) : Except LocateError (α × α) :=
  match rs.foldl locateStep (none, none) with
  | (none, _) => Except.error LocateError.missingStats
  | (some _, none) => Except.error LocateError.missingMoves
  | (some s, some m) => Except.ok (s, m)

/-- The claim's reading of "last match wins": the last element of the list
satisfying the predicate. -/
def lastWith {α : Type} (p : α → Bool) : List α → Option α
  | [] => none
  | x :: xs =>
    match lastWith p xs with
    | some y => some y
    | none => if p x then some x else none

/-! ### Derived metrics (`% shots 1`, `Val`) -/

/-- Team-row one-point percentage: `(succ1 / att1) if att1 > 0 else 0`. -/
def pctTeam (att succ : Int) : ℚ :=
  if 0 < att then (succ : ℚ) / (att : ℚ) else 0

/-- Player-row one-point percentage:
`0 if not row["Shots 1 Attempted"] else succ / att` (an integer is falsy
exactly when it is zero). -/
def pctPlayer (att succ : Int) : ℚ :=
  if att = 0 then 0 else (succ : ℚ) / (att : ℚ)

/-- The raw `calc_val` sum:
`pts - fouls + (mins / 5) + bonus` with `bonus = 0 if att == 0 else (succ / att) * 2`. -/
def calcVal (pts fouls mins att succ : Int) : ℚ :=
  (pts : ℚ) - (fouls : ℚ) + (mins : ℚ) / 5 +
    (if att = 0 then 0 else ((succ : ℚ) / (att : ℚ)) * 2)

/-- Model of the numpy `.round(0)` applied to the `Val` column: round half to
even. -/
def roundHalfEven (q : ℚ) : ℤ :=
  if q - (⌊q⌋ : ℚ) < 1 / 2 then ⌊q⌋
  else if 1 / 2 < q - (⌊q⌋ : ℚ) then ⌊q⌋ + 1
  else if Even ⌊q⌋ then ⌊q⌋ else ⌊q⌋ + 1

/-! ### Player statistics dataset -/

/-- One row of the player statistics dataset, including the two derived
columns. -/
structure PlayerRow where
  teamId : Int
  teamName : String
  playerId : Int
  playerName : String
  dorsal : Int
  totalPoints : Int
  minutesPlayed : Int
  totalFouls : Int
  shots1Att : Int
  shots1Succ : Int
  shots2Att : Int
  shots2Succ : Int
  shots3Att : Int
  shots3Succ : Int
  assists : Int
  rebounds : Int
  steals : Int
  blocks : Int
  turnovers : Int
  pctShots1 : ℚ
  val : Int
deriving DecidableEq

/-- `sum(p.get("faults", 0) for p in player_periods)`. -/
def playerTotalFouls (pl : PlayerPayload) : Int :=
  (pl.periods.map PlayerPeriod.faults).sum

/-- One player row, with the `% shots 1` and `Val` columns computed per row
exactly as the two `df.apply` passes do. -/
def buildPlayerRow (teamId : Int) (teamName : String) (pl : PlayerPayload) :
    PlayerRow :=
  { teamId := teamId
    teamName := teamName
    playerId := pl.actorId
    playerName := pl.name
    dorsal := pl.dorsal
    totalPoints := pl.data.score
    minutesPlayed := pl.timePlayed
    totalFouls := playerTotalFouls pl
    shots1Att := pl.data.shotsOfOneAttempted
    shots1Succ := pl.data.shotsOfOneSuccessful
    shots2Att := pl.data.shotsOfTwoAttempted
    shots2Succ := pl.data.shotsOfTwoSuccessful
    shots3Att := pl.data.shotsOfThreeAttempted
    shots3Succ := pl.data.shotsOfThreeSuccessful
    assists := pl.data.assists
    rebounds := pl.data.rebounds
    steals := pl.data.steals
    blocks := pl.data.block
    turnovers := pl.data.lost
    pctShots1 := pctPlayer pl.data.shotsOfOneAttempted pl.data.shotsOfOneSuccessful
    val := roundHalfEven (calcVal pl.data.score (playerTotalFouls pl)
      pl.timePlayed pl.data.shotsOfOneAttempted pl.data.shotsOfOneSuccessful) }

/-- The player statistics dataset: for each team, one row per roster player. -/
def buildPlayerStats (teams : List TeamPayload) : List PlayerRow :=
  (teams.map (fun t => t.players.map (buildPlayerRow t.teamIdIntern t.name))).flatten

/-! ### Team statistics dataset -/

/-- One row of the team statistics dataset. -/
structure TeamRow where
  teamId : Int
  teamName : String
  statType : String
  period : Option Nat
  score : Int
  valoration : Int
  shots1Att : Int
  shots1Succ : Int
  shots2Att : Int
  shots2Succ : Int
  shots3Att : Int
  shots3Succ : Int
  rebounds : Int
  assists : Int
  steals : Int
  blocks : Int
  lost : Int
  faults : Int
  pctShots1 : ℚ
deriving DecidableEq

/-- Common part of a team row built from a statistics block. -/
def teamRowOf (teamId : Int) (teamName statType : String) (period : Option Nat)
    (b : StatBlock) : TeamRow :=
  { teamId := teamId
    teamName := teamName
    statType := statType
    period := period
    score := b.score
    valoration := b.valoration
    shots1Att := b.shotsOfOneAttempted
    shots1Succ := b.shotsOfOneSuccessful
    shots2Att := b.shotsOfTwoAttempted
    shots2Succ := b.shotsOfTwoSuccessful
    shots3Att := b.shotsOfThreeAttempted
    shots3Succ := b.shotsOfThreeSuccessful
    rebounds := b.rebounds
    assists := b.assists
    steals := b.steals
    blocks := b.block
    lost := b.lost
    faults := b.faults
    pctShots1 := pctTeam b.shotsOfOneAttempted b.shotsOfOneSuccessful }

/-- The `"Overall"` row of a team (its `Period` column is the `"N/A"`
sentinel, modelled as `none`). -/
def overallRow (t : TeamPayload) : TeamRow :=
  teamRowOf t.teamIdIntern t.name "Overall" none t.data

/-- The row of a team's period at zero-based index `idx`
(`period_num = idx + 1`). -/
def periodRow (t : TeamPayload) (idx : Nat) (b : StatBlock) : TeamRow :=
  teamRowOf t.teamIdIntern t.name "Period" (some (idx + 1)) b

/-- All rows a single team contributes: the Overall row followed by one row
per entry of its period list. -/
def teamRows (t : TeamPayload) : List TeamRow :=
  overallRow t :: t.periods.enum.map (fun ip => periodRow t ip.1 ip.2)

/-- The team statistics dataset. -/
def buildTeamStats (teams : List TeamPayload) : List TeamRow :=
  (teams.map teamRows).flatten

/-! ### Timeline dataset -/

/-- One row of the play-by-play timeline dataset (the `Minute` column is shown
after the `pd.to_numeric(...).fillna(0).astype(int)` coercion; the `"N/A"`
default of the `Period` column is modelled as `none`). -/
structure TimelineRow where
  teamName : String
  playerName : String
  action : String
  minute : Int
  period : Option Int
  scoreLocal : Int
  scoreVisit : Int
deriving DecidableEq

/-- A (local, visit) score pair. -/
abbrev ScorePair := Int × Int

/-- Model of the score-string handling of the timeline loop: a nonempty
string containing `"-"` is split, each side stripped, and both sides handed
to `int(...)`; everything else defaults to `("0", "0")`.  The `Except` branch
models the uncaught `ValueError` (from unpacking or from `int`). -/
def parseScore : Option ScoreField → Except String ScorePair
  | some (ScoreField.str s) =>
    if !s.data.isEmpty && s.data.contains '-' then
      match (splitOnChar '-' s.data).map trimChars with
      | [a, b] =>
        match parseIntChars a, parseIntChars b with
        | some x, some y => Except.ok (x, y)
        | _, _ => Except.error "ValueError: invalid literal for int with base 10"
      | _ => Except.error "ValueError: unpack mismatch"
    else Except.ok (0, 0)
  | _ => Except.ok (0, 0)

/-- The cross-payload join: `next((t["name"] for t in teams if
t["teamIdIntern"] == move.get("idTeam")), "Unknown Team")`. -/
def resolveTeamName (teams : List TeamPayload) : Option Int → String
  | none => "Unknown Team"
  | some i =>
    match teams.find? (fun t => t.teamIdIntern == i) with
    | some t => t.name
    | none => "Unknown Team"

/-- The column-wide minute coercion
`pd.to_numeric(col, errors="coerce").fillna(0).astype(int)` applied to
`move.get("min", 0)` (numeric strings are modelled as integer literals). -/
def coerceMinute : Option MinField → Int
  | some (MinField.num n) => n
  | some (MinField.str s) => (parseIntChars s.data).getD 0
  | some MinField.other => 0
  | none => 0

/-- One timeline row; the only failure is the score `ValueError`. -/
def buildTimelineRow (stats : StatsPayload) (mv : MovePayload) :
    Except String TimelineRow := do
  let sc ← parseScore mv.score
  pure { teamName := resolveTeamName stats.teams mv.idTeam
         playerName := mv.actorName.getD "N/A"
         action := mv.move.getD "N/A"
         minute := coerceMinute mv.min
         period := mv.period
         scoreLocal := sc.1
         scoreVisit := sc.2 }

/-- The timeline dataset: the per-move loop, stopping at the first uncaught
exception exactly as the Python loop would. -/
def buildTimeline (stats : StatsPayload) (moves : List MovePayload) :
    Except String (List TimelineRow) :=
  moves.mapM (buildTimelineRow stats)

/-! ### Minute-by-minute dataset -/

/-- One row of the minute-by-minute dataset. -/
structure MinutePoint where
  minute : Int
  scoreLocal : Int
  scoreVisit : Int
deriving DecidableEq

/-- Componentwise maximum of two score pairs. -/
def pairMax (a b : ScorePair) : ScorePair := (max a.1 b.1, max a.2 b.2)

/-- The `groupby("Minute")[...].max()` aggregate: the componentwise maximum of
the score pairs of the timeline rows at minute `m`, or `none` when the minute
has no row. -/
def minuteMax (tl : List TimelineRow) (m : Int) : Option ScorePair :=
  match (tl.filter (fun r => r.minute == m)).map
      (fun r => (r.scoreLocal, r.scoreVisit)) with
  | [] => none
  | p :: ps => some (ps.foldl pairMax p)

/-- `df_minute_by_minute["Minute"].max()` over a non-empty timeline. -/
def maxMinute (tl : List TimelineRow) : Int :=
  match tl.map TimelineRow.minute with
  | [] => 0
  | m :: ms => ms.foldl max m

/-- The `reindex(all_minutes).ffill().fillna(0)` reconstruction: `k` rows
starting at minute `m`, each minute taking its grouped maximum when observed
and inheriting `prev` otherwise (with `prev = (0, 0)` before the first
observation). -/
def ffillScores (tl : List TimelineRow) : ScorePair → Nat → Nat →
    List MinutePoint
  | _, _, 0 => []
  | prev, m, k + 1 =>
    let v := match minuteMax tl (m : Int) with
      | some p => p
      | none => prev
    ⟨(m : Int), v.1, v.2⟩ :: ffillScores tl v (m + 1) k

/-- The minute-by-minute dataset: empty for an empty timeline, otherwise the
dense series over `RangeIndex(0, max_minute + 1)`. -/
def buildMinuteSeries (tl : List TimelineRow) : List MinutePoint :=
  if tl.isEmpty then []
  else ffillScores tl (0, 0) 0 (maxMinute tl + 1).toNat

/-! ### Global summary dataset -/

/-- A parsed `datetime` as produced by
`strptime(s, "%b %d, %Y %I:%M:%S %p")` (hour already converted to 24h). -/
structure MatchDateTime where
  year : Nat
  month : Nat
  day : Nat
  hour : Nat
  minute : Nat
  second : Nat
deriving DecidableEq

/-- Lowercase three-letter month abbreviations, in order. -/
def monthAbbrevs : List String :=
  ["jan", "feb", "mar", "apr", "may", "jun",
   "jul", "aug", "sep", "oct", "nov", "dec"]

/-- Month number from a `%b` token (case-insensitive). -/
def parseMonth (tok : List Char) : Option Nat :=
  match monthAbbrevs.findIdx? (fun a => a.data == tok.map Char.toLower) with
  | some i => some (i + 1)
  | none => none

/-- A one- or two-digit numeric token. -/
def parseNum2 (tok : List Char) : Option Nat :=
  if tok.length = 0 || 2 < tok.length then none
  else if tok.all Char.isDigit then some (digitsVal tok) else none

/-- A `%Y` token: exactly four digits. -/
def parseYear (tok : List Char) : Option Nat :=
  if tok.length = 4 && tok.all Char.isDigit then some (digitsVal tok)
  else none

/-- Whether `y` is a leap year (Gregorian rule, as `datetime` uses). -/
def isLeapYear (y : Nat) : Bool :=
  (y % 4 == 0 && y % 100 != 0) || y % 400 == 0

/-- Number of days of month `m` in year `y`. -/
def daysInMonth (y m : Nat) : Nat :=
  if m = 2 then (if isLeapYear y then 29 else 28)
  else if m = 4 ∨ m = 6 ∨ m = 9 ∨ m = 11 then 30
  else 31

/-- The `%I:%M:%S` token: `(hour12, minute, second)`. -/
def parseClock (tok : List Char) : Option (Nat × Nat × Nat) := do
  match splitOnChar ':' tok with
  | [hS, mS, sS] =>
    let h ← parseNum2 hS
    let mi ← parseNum2 mS
    let se ← parseNum2 sS
    if 1 ≤ h ∧ h ≤ 12 ∧ mi ≤ 59 ∧ se ≤ 59 then some (h, mi, se) else none
  | _ => none

/-- Maximal non-whitespace runs ("words") of a character list; `acc` holds
the characters of the current word in reverse. -/
def wordsAux : List Char → List Char → List (List Char)
  | acc, [] => if acc.isEmpty then [] else [acc.reverse]
  | acc, c :: cs =>
    if c.isWhitespace then
      if acc.isEmpty then wordsAux [] cs else acc.reverse :: wordsAux [] cs
    else wordsAux (c :: acc) cs

/-- The whitespace-separated words of a character list, under the anchoring
of a `strptime` pattern: a compiled format turns each whitespace run of the
format into a one-or-more whitespace matcher, the match is anchored at the
start, and leftover input is rejected — so the subject must neither start nor
end with whitespace. -/
def strictWords (l : List Char) : Option (List (List Char)) :=
  match l, l.reverse with
  | c :: _, d :: _ =>
    if c.isWhitespace || d.isWhitespace then none
    else some (wordsAux [] l)
  | _, _ => none

/-- Model of `datetime.strptime(s, "%b %d, %Y %I:%M:%S %p")`: `none` models
the `ValueError` on any string not of that shape (month abbreviation, day with
trailing comma, four-digit year, 12-hour clock, AM/PM marker, tokens separated
by runs of whitespace — CPython compiles format whitespace to a one-or-more
whitespace matcher), including calendar-invalid days. -/
def strptimeMatchFormat (s : String) : Option MatchDateTime := do
  match ← strictWords s.data with
  | [monthS, dayS, yearS, clockS, ampmS] =>
    let m ← parseMonth monthS
    match dayS.reverse with
    | ',' :: dayRev =>
      let d ← parseNum2 dayRev.reverse
      let y ← parseYear yearS
      let (h12, mi, se) ← parseClock clockS
      let pm ← match String.mk (ampmS.map Char.toLower) with
        | "am" => some false
        | "pm" => some true
        | _ => none
      if 1 ≤ d ∧ d ≤ daysInMonth y m then
        let hour24 : Nat :=
          if pm then (if h12 = 12 then 12 else h12 + 12)
          else (if h12 = 12 then 0 else h12)
        some ⟨y, m, d, hour24, mi, se⟩
      else none
    | _ => none
  | _ => none

/-- Two-digit zero padding, as `strftime` emits. -/
def pad2 (n : Nat) : String :=
  if n < 10 then "0" ++ toString n else toString n

/-- `match_datetime.strftime("%Y-%m-%d")`. -/
def formatDay (dt : MatchDateTime) : String :=
  toString dt.year ++ "-" ++ pad2 dt.month ++ "-" ++ pad2 dt.day

/-- `match_datetime.strftime("%H:%M:%S")`. -/
def formatTime (dt : MatchDateTime) : String :=
  pad2 dt.hour ++ ":" ++ pad2 dt.minute ++ ":" ++ pad2 dt.second

/-- `sum(period_duration_list) if period_duration_list else None`. -/
def calcTotalDuration (l : List Int) : Option Int :=
  if l.isEmpty then none else some l.sum

/-- The single-record global summary dataset. -/
structure GlobalSummary where
  idMatchIntern : Option Int
  matchDay : String
  matchTime : String
  totalDurationMinutes : Option Int
  periodDurationMinutes : Option Int
  periodTotal : Option Int
  localTeamName : Option String
  visitTeamName : Option String
  finalScoreLocal : Option Int
  finalScoreVisit : Option Int
deriving DecidableEq

/-- The global-summary block of `_build_dataframes`; the two `Except.error`
branches model the `TypeError` on a missing `"time"` field and the
`ValueError` on a format mismatch, both uncaught. -/
def buildGlobalSummary (s : StatsPayload) : Except String GlobalSummary :=
  match s.time with
  | none => Except.error "TypeError: strptime argument 1 must be str, not None"
  | some ts =>
    match strptimeMatchFormat ts with
    | none => Except.error "ValueError: time data does not match format"
    | some dt =>
      Except.ok
        { idMatchIntern := s.idMatchIntern
          matchDay := formatDay dt
          matchTime := formatTime dt
          totalDurationMinutes := calcTotalDuration s.periodDurationList
          periodDurationMinutes := s.periodDuration
          periodTotal := s.period
          localTeamName := s.teams.head?.map TeamPayload.name
          visitTeamName := (s.teams[1]?).map TeamPayload.name
          finalScoreLocal := s.teams.head?.map (fun t => t.data.score)
          finalScoreVisit := (s.teams[1]?).map (fun t => t.data.score) }

/-! ### The full normalizer -/

/-- The five datasets (plus the raw statistics payload) returned by
`_build_dataframes`. -/
structure MatchData where
  dfGlobalSummary : GlobalSummary
  dfTeamStats : List TeamRow
  dfPlayerStats : List PlayerRow
  dfMatchTimeline : List TimelineRow
  dfMinuteByMinute : List MinutePoint
  fullMatchStats : StatsPayload
deriving DecidableEq

/-- Model of `_build_dataframes`: global summary, player statistics, team
statistics, timeline and minute-by-minute series, in the evaluation order of
the source, with the uncaught exceptions surfaced in `Except`.  Two pandas
failure modes are part of that order: when no team has any player, the
player frame has no columns and the `"% shots 1"` column assignment raises
`ValueError`; and when the moves payload is empty, the timeline frame has no
columns and the `Minute` coercion raises `KeyError` — so the empty branch of
the minute-series construction is unreachable from here, exactly as in the
source. -/
def normalize (stats : StatsPayload) (moves : List MovePayload) :
    Except String MatchData := do
  let g ← buildGlobalSummary stats
  if (buildPlayerStats stats.teams).isEmpty then
    Except.error
      "ValueError: cannot set a DataFrame with multiple columns to the single column % shots 1"
  else
    let tl ← buildTimeline stats moves
    if tl.isEmpty then
      Except.error "KeyError: Minute"
    else
      pure ⟨g, buildTeamStats stats.teams, buildPlayerStats stats.teams, tl,
        buildMinuteSeries tl, stats⟩

/-! ### Auxiliary predicates used in the statements -/

/-- Componentwise order on score pairs ("both score columns non-decreasing"). -/
def pairLe (a b : ScorePair) : Prop := a.1 ≤ b.1 ∧ a.2 ≤ b.2

instance (a b : ScorePair) : Decidable (pairLe a b) := by
  unfold pairLe; infer_instance

/-- The inputs on which the timeline loop takes the `("0", "0")` default:
score absent, non-string, empty, or without the `"-"` separator. -/
def scoreDefaultCase : Option ScoreField → Prop
  | none => True
  | some ScoreField.nonStr => True
  | some (ScoreField.str s) => s.data = [] ∨ s.data.contains '-' = false

/-! ### Concrete payloads used by the closed theorems -/

/-- A move event at minute `m` with score string `sc`, attributed to team 1. -/
def moveAt (m : Int) (sc : String) : MovePayload :=
  ⟨some 1, some "Anna", some "Basket", some (MinField.num m), some 1,
    some (ScoreField.str sc)⟩

/-- A roster player with all-zero statistics. -/
def playerZero : PlayerPayload := ⟨21, "Dana", 5, 0, zeroBlock, []⟩

/-- First team of the end-to-end scenario (no periods reported, one roster
player so the player frame is non-empty). -/
def teamAlpha : TeamPayload := ⟨1, "Alpha", zeroBlock, [], [playerZero]⟩

/-- Second team of the end-to-end scenario (no periods reported). -/
def teamBeta : TeamPayload := ⟨2, "Beta", zeroBlock, [], []⟩

/-- Stats payload with two teams and no periods reported. -/
def statsTwoTeams : StatsPayload :=
  ⟨some 7, some "Jan 2, 2025 6:30:00 PM", [], some 10, some 4,
    [teamAlpha, teamBeta]⟩

/-- The three events of the end-to-end scenario. -/
def movesEndToEnd : List MovePayload :=
  [moveAt 2 "5-0", moveAt 2 "5-2", moveAt 5 "10-4"]

/-- A one-team stats payload with a valid timestamp and a non-empty roster. -/
def statsOneTeam : StatsPayload :=
  ⟨none, some "Feb 3, 2024 9:05:07 AM", [], none, none, [teamAlpha]⟩

/-- Two events whose scores decrease from minute 0 to minute 1. -/
def movesDecreasing : List MovePayload :=
  [moveAt 0 "5-5", moveAt 1 "0-0"]

/-- A move whose score string contains the separator but no parseable
integers. -/
def badScoreMove : MovePayload :=
  ⟨some 1, some "Berta", some "Basket", some (MinField.num 3), some 1,
    some (ScoreField.str "a-b")⟩

/-- The player of the worked `Val` example: 20 points, 25 minutes played,
4 one-point attempts, 3 successes, fouls 2 + 1 over two periods. -/
def valExamplePlayer : PlayerPayload :=
  ⟨11, "Carla", 7, 25,
    { zeroBlock with
        score := 20, shotsOfOneAttempted := 4, shotsOfOneSuccessful := 3 },
    [⟨2⟩, ⟨1⟩]⟩

/-- A team whose one-point successes exceed its attempts. -/
def teamInflated : TeamPayload :=
  ⟨5, "Gamma",
    { zeroBlock with shotsOfOneAttempted := 4, shotsOfOneSuccessful := 8 },
    [], []⟩

/-- A team with 1 one-point success out of 2 attempts. -/
def teamHalf : TeamPayload :=
  ⟨6, "Delta",
    { zeroBlock with shotsOfOneAttempted := 2, shotsOfOneSuccessful := 1 },
    [], []⟩

/-- A team with an empty period list. -/
def teamNoPeriods : TeamPayload := ⟨9, "Epsilon", zeroBlock, [], []⟩

/-- A team whose roster holds the worked-example player. -/
def teamValExample : TeamPayload := ⟨3, "Zeta", zeroBlock, [], [valExamplePlayer]⟩

/-- A response whose URL carries only the moves signature. -/
def respMovesOnly : Resp Nat := ⟨"a/getJsonWithMatchMoves", 1⟩

/-- A response whose URL carries both signatures. -/
def respBothSigs : Resp Nat :=
  ⟨"b/getJsonWithMatchStats/getJsonWithMatchMoves", 2⟩

/-- A single timeline row at minute 0 with score (2, 3). -/
def rowMinuteZero : TimelineRow := ⟨"Alpha", "Anna", "Basket", 0, some 1, 2, 3⟩

/-! ### Helper lemmas -/

/-- Half-to-even rounding lands within one half of its argument, i.e. it is a
nearest-integer rounding. -/
theorem roundHalfEven_dist (q : ℚ) : |((roundHalfEven q : ℤ) : ℚ) - q| ≤ 1 / 2 := by
  have h1 : ((⌊q⌋ : ℤ) : ℚ) ≤ q := Int.floor_le q
  have h2 : q < ((⌊q⌋ : ℤ) : ℚ) + 1 := Int.lt_floor_add_one q
  unfold roundHalfEven
  split_ifs <;> (rw [abs_le]; constructor <;> push_cast <;> linarith)

/-- A global summary built without error copies `calcTotalDuration` into its
total-duration column. -/
theorem summary_total_duration (s : StatsPayload) (g : GlobalSummary)
    (hg : buildGlobalSummary s = Except.ok g) :
    g.totalDurationMinutes = calcTotalDuration s.periodDurationList := by
  unfold buildGlobalSummary at hg
  split at hg
  · exact absurd hg (by simp)
  · split at hg
    · exact absurd hg (by simp)
    · simp only [Except.ok.injEq] at hg
      rw [← hg]

/-- Claim C2: every player row's stored `Val` column is a nearest-integer
rounding, applied exactly once after all additive terms, of
`points - total_fouls + minutes_played / 5 + bonus` with
`bonus = 0` when one-point attempts are `0` and `(succ / att) * 2` otherwise;
and the worked record (points 20, fouls 3, minutes 25, one-point 3 of 4)
stores `Val = 24`. -/
theorem player_val_formula :
    (∀ (teamId : Int) (teamName : String) (pl : PlayerPayload),
      |(((buildPlayerRow teamId teamName pl).val : ℤ) : ℚ)
          - ((pl.data.score : ℚ) - (playerTotalFouls pl : ℚ)
             + (pl.timePlayed : ℚ) / 5
             + (if pl.data.shotsOfOneAttempted = 0 then 0
                else ((pl.data.shotsOfOneSuccessful : ℚ) /
                  (pl.data.shotsOfOneAttempted : ℚ)) * 2))| ≤ 1 / 2)
    ∧ (buildPlayerRow 1 "Alpha" valExamplePlayer).val = 24 := by
  constructor
  · intro teamId teamName pl
    have h := roundHalfEven_dist (calcVal pl.data.score (playerTotalFouls pl)
      pl.timePlayed pl.data.shotsOfOneAttempted pl.data.shotsOfOneSuccessful)
    simpa [buildPlayerRow, calcVal] using h
  · have hv : (buildPlayerRow 1 "Alpha" valExamplePlayer).val
        = roundHalfEven (calcVal 20 3 25 4 3) := rfl
    have hcv : calcVal 20 3 25 4 3 = 47 / 2 := by norm_num [calcVal]
    have hfl : (⌊(47 / 2 : ℚ)⌋ : ℤ) = 23 := by norm_num
    rw [hv, hcv]
    unfold roundHalfEven
    rw [hfl]
    norm_num
    decide

/-- Claim C8: the global summary's total duration is the sum of the declared
period durations when the list is non-empty, and the unset value (not zero)
when the list is empty. -/
theorem total_duration_rule :
    (∀ l : List Int, l ≠ [] → calcTotalDuration l = some l.sum)
    ∧ calcTotalDuration [] = none
    ∧ (∀ (s : StatsPayload) (g : GlobalSummary),
        buildGlobalSummary s = Except.ok g →
        g.totalDurationMinutes = calcTotalDuration s.periodDurationList) := by
  refine ⟨?_, rfl, summary_total_duration⟩
  intro l h
  cases l with
  | nil => exact absurd rfl h
  | cons a l => rfl

/-- Witness for C8 at a concrete duration list and a concrete payload. -/
theorem total_duration_rule_witness :
    calcTotalDuration [10, 10] = some 20
    ∧ calcTotalDuration [] = none
    ∧ ∃ g, buildGlobalSummary statsTwoTeams = Except.ok g
        ∧ g.totalDurationMinutes
            = calcTotalDuration statsTwoTeams.periodDurationList := by
  refine ⟨?_, total_duration_rule.2.1, ?_⟩
  · have h := total_duration_rule.1 [10, 10] (by decide)
    simpa using h
  · exact ⟨_, rfl, total_duration_rule.2.2 statsTwoTeams _ rfl⟩

/-- Claim C9: `normalize` is a deterministic function of its two payload
inputs: two calls on identical inputs agree on all five datasets. -/
theorem normalize_deterministic :
    ∀ (stats : StatsPayload) (moves : List MovePayload),
      normalize stats moves = normalize stats moves
      ∧ (normalize stats moves).map MatchData.dfGlobalSummary
          = (normalize stats moves).map MatchData.dfGlobalSummary
      ∧ (normalize stats moves).map MatchData.dfTeamStats
          = (normalize stats moves).map MatchData.dfTeamStats
      ∧ (normalize stats moves).map MatchData.dfPlayerStats
          = (normalize stats moves).map MatchData.dfPlayerStats
      ∧ (normalize stats moves).map MatchData.dfMatchTimeline
          = (normalize stats moves).map MatchData.dfMatchTimeline
      ∧ (normalize stats moves).map MatchData.dfMinuteByMinute
          = (normalize stats moves).map MatchData.dfMinuteByMinute :=
  fun _ _ => ⟨rfl, rfl, rfl, rfl, rfl, rfl⟩

/-- Claim C3 counterexample: the present, malformed score string `"a-b"`
passes the separator check, so `int("a")` raises and the whole batch fails
instead of the event defaulting to `(0, 0)`; the payload has a roster player,
so the run reaches the timeline loop. -/
theorem score_default_counterexample :
    parseScore (some (ScoreField.str "a-b"))
      = Except.error "ValueError: invalid literal for int with base 10"
    ∧ normalize statsOneTeam [badScoreMove]
      = Except.error "ValueError: invalid literal for int with base 10" :=
  ⟨rfl, rfl⟩

/-- Claim C3 (amended): `"45-40"` parses to `(45, 40)`; the `(0, 0)` default
applies exactly when the score field is absent, not a string, empty, or
lacks the separator; a present string containing the separator is split and
both stripped sides are parsed as integers when they are parseable. -/
theorem score_parsing_amended :
    parseScore (some (ScoreField.str "45-40")) = Except.ok (45, 40)
    ∧ (∀ sf : Option ScoreField, scoreDefaultCase sf →
        parseScore sf = Except.ok (0, 0))
    ∧ (∀ (s : String) (a b : List Char) (x y : Int),
        s.data.contains '-' = true →
        splitOnChar '-' s.data = [a, b] →
        parseIntChars (trimChars a) = some x →
        parseIntChars (trimChars b) = some y →
        parseScore (some (ScoreField.str s)) = Except.ok (x, y)) := by
  refine ⟨rfl, ?_, ?_⟩
  · intro sf h
    match sf with
    | none => rfl
    | some ScoreField.nonStr => rfl
    | some (ScoreField.str s) =>
      rcases h with h | h
      · simp [parseScore, h]
      · have hcond : ¬ ((!s.data.isEmpty && s.data.contains '-') = true) := by
          rw [h]
          simp
        simp only [parseScore]
        rw [if_neg hcond]
  · intro s a b x y hc hsplit hx hy
    have hne : s.data.isEmpty = false := by
      cases hd : s.data with
      | nil => rw [hd] at hc; exact absurd hc (by decide)
      | cons c cs => rfl
    have hcond : (!s.data.isEmpty && s.data.contains '-') = true := by
      rw [hne, hc]; rfl
    simp only [parseScore]
    rw [if_pos hcond, hsplit]
    simp [hx, hy]

/-- Witness for C3 at a concrete default input and a concrete parseable
score string. -/
theorem score_parsing_amended_witness :
    parseScore (none : Option ScoreField) = Except.ok (0, 0)
    ∧ parseScore (some (ScoreField.str "45-40")) = Except.ok (45, 40) :=
  ⟨score_parsing_amended.2.1 none trivial,
    score_parsing_amended.2.2 "45-40" ['4', '5'] ['4', '0'] 45 40
      rfl rfl rfl rfl⟩

/-- Every row of the team statistics dataset carries the `pctTeam` value of
its own shot columns. -/
theorem teamRow_pct (teams : List TeamPayload) (row : TeamRow)
    (h : row ∈ buildTeamStats teams) :
    row.pctShots1 = pctTeam row.shots1Att row.shots1Succ := by
  unfold buildTeamStats at h
  rw [List.mem_flatten] at h
  obtain ⟨l, hl, hrow⟩ := h
  rw [List.mem_map] at hl
  obtain ⟨t, ht, rfl⟩ := hl
  unfold teamRows at hrow
  rcases List.mem_cons.mp hrow with rfl | hrow
  · rfl
  · rw [List.mem_map] at hrow
    obtain ⟨ip, hip, rfl⟩ := hrow
    rfl

/-- Every row of the player statistics dataset carries the `pctPlayer` value
of its own shot columns. -/
theorem playerRow_pct (teams : List TeamPayload) (row : PlayerRow)
    (h : row ∈ buildPlayerStats teams) :
    row.pctShots1 = pctPlayer row.shots1Att row.shots1Succ := by
  unfold buildPlayerStats at h
  rw [List.mem_flatten] at h
  obtain ⟨l, hl, hrow⟩ := h
  rw [List.mem_map] at hl
  obtain ⟨t, ht, rfl⟩ := hl
  rw [List.mem_map] at hrow
  obtain ⟨pl, hpl, rfl⟩ := hrow
  rfl

/-- Range and exact-value facts for both percentage formulas on well-formed
counts. -/
theorem pct_core (att succ : Int) (h0 : 0 ≤ succ) (h1 : succ ≤ att) :
    (0 ≤ pctTeam att succ ∧ pctTeam att succ ≤ 1
      ∧ (0 < att → pctTeam att succ = (succ : ℚ) / (att : ℚ))
      ∧ (att = 0 → pctTeam att succ = 0))
    ∧ (0 ≤ pctPlayer att succ ∧ pctPlayer att succ ≤ 1
      ∧ (0 < att → pctPlayer att succ = (succ : ℚ) / (att : ℚ))
      ∧ (att = 0 → pctPlayer att succ = 0)) := by
  have hatt : 0 ≤ att := le_trans h0 h1
  by_cases hz : att = 0
  · subst hz
    have ht : pctTeam 0 succ = 0 := by simp [pctTeam]
    have hp : pctPlayer 0 succ = 0 := by simp [pctPlayer]
    exact ⟨⟨le_of_eq ht.symm, by rw [ht]; norm_num,
        fun hlt => absurd hlt (by norm_num), fun _ => ht⟩,
      ⟨le_of_eq hp.symm, by rw [hp]; norm_num,
        fun hlt => absurd hlt (by norm_num), fun _ => hp⟩⟩
  · have hpos : 0 < att := lt_of_le_of_ne hatt (Ne.symm hz)
    have hc : (0 : ℚ) < (att : ℚ) := by exact_mod_cast hpos
    have hs0 : (0 : ℚ) ≤ (succ : ℚ) := by exact_mod_cast h0
    have hs1 : (succ : ℚ) ≤ (att : ℚ) := by exact_mod_cast h1
    have ht : pctTeam att succ = (succ : ℚ) / (att : ℚ) := by
      simp [pctTeam, hpos]
    have hp : pctPlayer att succ = (succ : ℚ) / (att : ℚ) := by
      simp [pctPlayer, hz]
    have hnn : 0 ≤ (succ : ℚ) / (att : ℚ) := div_nonneg hs0 (le_of_lt hc)
    have hle : (succ : ℚ) / (att : ℚ) ≤ 1 := (div_le_one hc).mpr hs1
    exact ⟨⟨ht ▸ hnn, ht ▸ hle, fun _ => ht, fun he => absurd he hz⟩,
      ⟨hp ▸ hnn, hp ▸ hle, fun _ => hp, fun he => absurd he hz⟩⟩

/-- Claim C4 (amended): for every team statistics row (Overall and per-period)
and every player row whose one-point counts are well-formed
(0 ≤ successes ≤ attempts), the derived one-point percentage lies in [0, 1],
equals successes / attempts when attempts > 0, and is exactly 0 when
attempts = 0 — never a division fault. -/
theorem pct_shots_bounds :
    ∀ teams : List TeamPayload,
      (∀ row ∈ buildTeamStats teams,
        0 ≤ row.shots1Succ → row.shots1Succ ≤ row.shots1Att →
          0 ≤ row.pctShots1 ∧ row.pctShots1 ≤ 1
          ∧ (0 < row.shots1Att →
              row.pctShots1 = (row.shots1Succ : ℚ) / (row.shots1Att : ℚ))
          ∧ (row.shots1Att = 0 → row.pctShots1 = 0))
      ∧ (∀ row ∈ buildPlayerStats teams,
        0 ≤ row.shots1Succ → row.shots1Succ ≤ row.shots1Att →
          0 ≤ row.pctShots1 ∧ row.pctShots1 ≤ 1
          ∧ (0 < row.shots1Att →
              row.pctShots1 = (row.shots1Succ : ℚ) / (row.shots1Att : ℚ))
          ∧ (row.shots1Att = 0 → row.pctShots1 = 0)) := by
  intro teams
  constructor
  · intro row hmem h0 h1
    have hpct := teamRow_pct teams row hmem
    have hc := (pct_core row.shots1Att row.shots1Succ h0 h1).1
    rw [hpct]
    exact hc
  · intro row hmem h0 h1
    have hpct := playerRow_pct teams row hmem
    have hc := (pct_core row.shots1Att row.shots1Succ h0 h1).2
    rw [hpct]
    exact hc

/-- Claim C4 counterexample: a team whose data block reports 8 one-point
successes out of 4 attempts gets an Overall-row percentage of 2, outside
[0, 1]. -/
theorem pct_shots_counterexample :
    (buildTeamStats [teamInflated]).map TeamRow.pctShots1 = [2]
    ∧ ¬ ((2 : ℚ) ≤ 1) := by
  constructor
  · show [pctTeam 4 8] = [2]
    have h : pctTeam 4 8 = 2 := by norm_num [pctTeam]
    rw [h]
  · norm_num

/-- Witness for C4 at a concrete well-formed team row (1 of 2 attempts) and a
concrete well-formed player row (3 of 4 attempts). -/
theorem pct_shots_bounds_witness :
    (0 ≤ (overallRow teamHalf).pctShots1 ∧ (overallRow teamHalf).pctShots1 ≤ 1)
    ∧ (0 ≤ (buildPlayerRow 3 "Zeta" valExamplePlayer).pctShots1
       ∧ (buildPlayerRow 3 "Zeta" valExamplePlayer).pctShots1 ≤ 1) := by
  constructor
  · have hmem : overallRow teamHalf ∈ buildTeamStats [teamHalf] :=
      List.mem_cons_self _ _
    have h := (pct_shots_bounds [teamHalf]).1 (overallRow teamHalf) hmem
      (by decide) (by decide)
    exact ⟨h.1, h.2.1⟩
  · have hmem : buildPlayerRow 3 "Zeta" valExamplePlayer
        ∈ buildPlayerStats [teamValExample] :=
      List.mem_cons_self _ _
    have h := (pct_shots_bounds [teamValExample]).2
      (buildPlayerRow 3 "Zeta" valExamplePlayer) hmem (by decide) (by decide)
    exact ⟨h.1, h.2.1⟩

/-- The period rows of a team contribute no Overall row. -/
theorem periodRows_countP (t : TeamPayload) :
    ∀ l : List (Nat × StatBlock),
      (l.map (fun ip => periodRow t ip.1 ip.2)).countP
        (fun r => r.statType == "Overall") = 0 := by
  intro l
  induction l with
  | nil => rfl
  | cons ip l ih =>
    rw [List.map_cons, List.countP_cons]
    simp [periodRow, teamRowOf, ih]

/-- The period rows of a team carry the period numbers `index + 1`. -/
theorem periodRows_numbers (t : TeamPayload) :
    ∀ l : List (Nat × StatBlock),
      (l.map (fun ip => periodRow t ip.1 ip.2)).filterMap TeamRow.period
        = l.map (fun ip => ip.1 + 1) := by
  intro l
  induction l with
  | nil => rfl
  | cons ip l ih =>
    rw [List.map_cons, List.filterMap_cons]
    simp only [show TeamRow.period (periodRow t ip.1 ip.2) = some (ip.1 + 1)
      from rfl]
    rw [ih, List.map_cons]

/-- Successor of the index column of `enumFrom`. -/
theorem enumFrom_fst_succ {β : Type} :
    ∀ (n : Nat) (l : List β),
      (List.enumFrom n l).map (fun ip => ip.1 + 1) = List.range' (n + 1) l.length := by
  intro n l
  induction l generalizing n with
  | nil => rfl
  | cons b l ih => simp [List.enumFrom, List.range', ih]

/-- A team's single Overall row. -/
theorem teamRows_overall_count (t : TeamPayload) :
    (teamRows t).countP (fun r => r.statType == "Overall") = 1 := by
  unfold teamRows
  rw [List.countP_cons]
  simp [overallRow, teamRowOf, periodRows_countP t]

/-- A team's period rows carry exactly the numbers `1, ..., n`. -/
theorem teamRows_period_numbers (t : TeamPayload) :
    (teamRows t).filterMap TeamRow.period = List.range' 1 t.periods.length := by
  unfold teamRows
  rw [List.filterMap_cons]
  simp [overallRow, teamRowOf, periodRows_numbers t, List.enum,
    enumFrom_fst_succ 0 t.periods]

/-- Claim C7: the team statistics dataset is, team by team, one Overall row
plus one row per period-list entry with period numbers consecutive from 1
(hence without duplicates); an empty period list contributes zero period rows
without error. -/
theorem team_stats_shape :
    ∀ (teams : List TeamPayload) (t : TeamPayload),
      buildTeamStats teams = (teams.map teamRows).flatten
      ∧ (teamRows t).countP (fun r => r.statType == "Overall") = 1
      ∧ (teamRows t).filterMap TeamRow.period = List.range' 1 t.periods.length
      ∧ ((teamRows t).filterMap TeamRow.period).Nodup
      ∧ (t.periods = [] → (teamRows t).filterMap TeamRow.period = []) :=
  fun teams t =>
    ⟨rfl, teamRows_overall_count t, teamRows_period_numbers t,
      by rw [teamRows_period_numbers]; exact List.nodup_range' _ _,
      fun h => by rw [teamRows_period_numbers, h]; rfl⟩

/-- Witness for C7 at a team with an empty period list. -/
theorem team_stats_shape_witness :
    (teamRows teamNoPeriods).filterMap TeamRow.period = [] :=
  (team_stats_shape [] teamNoPeriods).2.2.2.2 rfl

/-- First component of one location-scan step. -/
theorem locateStep_fst {α : Type} (acc : Option α × Option α) (r : Resp α) :
    (locateStep acc r).1
      = if containsSeq statsSig.data r.url.data then some r.jsonData
        else acc.1 := by
  unfold locateStep
  by_cases h1 : containsSeq statsSig.data r.url.data = true
  · simp [h1]
  · by_cases h2 : containsSeq movesSig.data r.url.data = true <;> simp [h1, h2]

/-- Second component of one location-scan step. -/
theorem locateStep_snd {α : Type} (acc : Option α × Option α) (r : Resp α) :
    (locateStep acc r).2
      = if (containsSeq movesSig.data r.url.data
            && !containsSeq statsSig.data r.url.data) then some r.jsonData
        else acc.2 := by
  unfold locateStep
  by_cases h1 : containsSeq statsSig.data r.url.data = true
  · simp [h1]
  · by_cases h2 : containsSeq movesSig.data r.url.data = true <;> simp [h1, h2]

/-- The stats slot of the scan holds the last stats-signature match. -/
theorem locate_foldl_fst {α : Type} :
    ∀ (rs : List (Resp α)) (acc : Option α × Option α),
      (rs.foldl locateStep acc).1
        = (match lastWith (fun r => containsSeq statsSig.data r.url.data) rs with
           | some r => some r.jsonData
           | none => acc.1) := by
  intro rs
  induction rs with
  | nil => intro acc; rfl
  | cons r rest ih =>
    intro acc
    rw [List.foldl_cons, ih]
    cases h : lastWith (fun r => containsSeq statsSig.data r.url.data) rest with
    | some y => simp [lastWith, h]
    | none =>
      simp only [lastWith, h, locateStep_fst]
      by_cases hr : containsSeq statsSig.data r.url.data = true <;> simp [hr]

/-- The moves slot of the scan holds the last match of the moves signature
among responses not matching the stats signature. -/
theorem locate_foldl_snd {α : Type} :
    ∀ (rs : List (Resp α)) (acc : Option α × Option α),
      (rs.foldl locateStep acc).2
        = (match lastWith (fun r => containsSeq movesSig.data r.url.data
              && !containsSeq statsSig.data r.url.data) rs with
           | some r => some r.jsonData
           | none => acc.2) := by
  intro rs
  induction rs with
  | nil => intro acc; rfl
  | cons r rest ih =>
    intro acc
    rw [List.foldl_cons, ih]
    cases h : lastWith (fun r => containsSeq movesSig.data r.url.data
        && !containsSeq statsSig.data r.url.data) rest with
    | some y => simp [lastWith, h]
    | none =>
      simp only [lastWith, h, locateStep_snd]
      by_cases hr : (containsSeq movesSig.data r.url.data
          && !containsSeq statsSig.data r.url.data) = true <;> simp [hr]

/-- Claim C6 (amended): `locate` keeps, for stats, the last response whose URL
contains the stats signature, and, for moves, the last response whose URL
contains the moves signature but not the stats signature (the stats branch
shadows the moves test); with no stats match it fails identifying stats, and
with a stats match but no moves-only match it fails identifying moves, in
both cases returning no payloads. -/
theorem locate_characterization :
    ∀ (α : Type) (rs : List (Resp α)),
      locate rs =
        match lastWith (fun r => containsSeq statsSig.data r.url.data) rs,
          lastWith (fun r => containsSeq movesSig.data r.url.data
            && !containsSeq statsSig.data r.url.data) rs with
        | none, _ => Except.error LocateError.missingStats
        | some _, none => Except.error LocateError.missingMoves
        | some s, some m => Except.ok (s.jsonData, m.jsonData) := by
  intro α rs
  unfold locate
  rw [show rs.foldl locateStep ((none : Option α), (none : Option α))
      = ((rs.foldl locateStep (none, none)).1,
         (rs.foldl locateStep (none, none)).2)
    from (Prod.mk.eta).symm]
  rw [locate_foldl_fst rs (none, none), locate_foldl_snd rs (none, none)]
  cases lastWith (fun r => containsSeq statsSig.data r.url.data) rs <;>
    cases lastWith (fun r => containsSeq movesSig.data r.url.data
      && !containsSeq statsSig.data r.url.data) rs <;>
    rfl

/-- Claim C6 counterexample: in `[respMovesOnly, respBothSigs]` the last
response matching the moves signature is `respBothSigs` (payload 2), yet
`locate` keeps payload 1 for moves, because `respBothSigs` also matches the
stats signature and the stats branch shadows the moves test. -/
theorem locate_counterexample :
    locate [respMovesOnly, respBothSigs] = Except.ok (2, 1)
    ∧ containsSeq movesSig.data respBothSigs.url.data = true
    ∧ lastWith (fun r => containsSeq movesSig.data r.url.data)
        [respMovesOnly, respBothSigs] = some respBothSigs
    ∧ (1 : Nat) ≠ 2 :=
  ⟨rfl, rfl, rfl, by decide⟩

/-- `pairLe` is reflexive. -/
theorem pairLe_refl (a : ScorePair) : pairLe a a := ⟨le_refl _, le_refl _⟩

/-- The minute column of the reconstruction is the dense range. -/
theorem ffillScores_map_minute (tl : List TimelineRow) :
    ∀ (k m : Nat) (prev : ScorePair),
      (ffillScores tl prev m k).map MinutePoint.minute
        = (List.range' m k).map Int.ofNat := by
  intro k
  induction k with
  | zero => intro m prev; rfl
  | succ k ih =>
    intro m prev
    simp [ffillScores, List.range', ih]

/-- The reconstruction never decreases when every observed per-minute maximum
at or after the start dominates the carried value and the observed maxima are
monotone. -/
theorem ffillScores_chain (tl : List TimelineRow)
    (hmono : ∀ (m1 m2 : Int) (p1 p2 : ScorePair), m1 ≤ m2 →
      minuteMax tl m1 = some p1 → minuteMax tl m2 = some p2 → pairLe p1 p2) :
    ∀ (k m : Nat) (prev : ScorePair),
      (∀ (j : Int) (q : ScorePair), (m : Int) ≤ j → minuteMax tl j = some q →
        pairLe prev q) →
      List.Chain pairLe prev
        ((ffillScores tl prev m k).map (fun r => (r.scoreLocal, r.scoreVisit))) := by
  intro k
  induction k with
  | zero => intro m prev _; exact List.Chain.nil
  | succ k ih =>
    intro m prev hprev
    cases hv : minuteMax tl (m : Int) with
    | none =>
      have hnext : ∀ (j : Int) (q : ScorePair), ((m + 1 : Nat) : Int) ≤ j →
          minuteMax tl j = some q → pairLe prev q := by
        intro j q hj hq
        refine hprev j q ?_ hq
        push_cast at hj ⊢
        omega
      have hc := ih (m + 1) prev hnext
      simp only [ffillScores, hv, List.map_cons]
      exact List.Chain.cons (pairLe_refl prev) hc
    | some p =>
      have hle : pairLe prev p := hprev (m : Int) p (le_refl _) hv
      have hnext : ∀ (j : Int) (q : ScorePair), ((m + 1 : Nat) : Int) ≤ j →
          minuteMax tl j = some q → pairLe p q := by
        intro j q hj hq
        refine hmono (m : Int) j p q ?_ hv hq
        push_cast at hj ⊢
        omega
      have hc := ih (m + 1) p hnext
      simp only [ffillScores, hv, List.map_cons]
      exact List.Chain.cons hle hc

/-- A chain from a head value is adjacentwise monotone on its tail. -/
theorem chainDropHead {α : Type} {r : α → α → Prop} {a : α} {l : List α}
    (h : List.Chain r a l) : List.Chain' r l := by
  cases h with
  | nil => exact List.chain'_nil
  | cons hr ht => exact ht

/-- Claim C1 (amended): every minute-by-minute dataset `normalize` completes
is total — one record per integer minute from 0 through the maximum observed
minute, no gaps — and both score columns are non-decreasing provided the
observed per-minute maxima are non-negative and non-decreasing in the minute
(arbitrary event scores can break monotonicity); an empty timeline yields no
empty series: with an empty moves payload the `Minute` coercion raises
`KeyError`, the written empty-series branch being unreachable. -/
theorem minute_series_shape :
    (∀ tl : List TimelineRow,
      (buildMinuteSeries tl).map MinutePoint.minute
          = (List.range' 0
              (if tl.isEmpty then 0 else (maxMinute tl + 1).toNat)).map Int.ofNat
      ∧ ((∀ (m : Int) (p : ScorePair), minuteMax tl m = some p →
            pairLe (0, 0) p) →
         (∀ (m1 m2 : Int) (p1 p2 : ScorePair), m1 ≤ m2 →
            minuteMax tl m1 = some p1 → minuteMax tl m2 = some p2 →
            pairLe p1 p2) →
         List.Chain' pairLe
           ((buildMinuteSeries tl).map (fun r => (r.scoreLocal, r.scoreVisit)))))
    ∧ (∀ stats : StatsPayload,
        (buildPlayerStats stats.teams).isEmpty = false →
        ∀ g : GlobalSummary, buildGlobalSummary stats = Except.ok g →
        normalize stats [] = Except.error "KeyError: Minute") := by
  constructor
  · intro tl
    constructor
    · by_cases h : tl.isEmpty
      · simp [buildMinuteSeries, h]
      · simp [buildMinuteSeries, h, ffillScores_map_minute]
    · intro h0 hmono
      by_cases h : tl.isEmpty
      · simp [buildMinuteSeries, h]
      · have hc := ffillScores_chain tl hmono ((maxMinute tl + 1).toNat) 0 (0, 0)
          (fun j q hj hq => h0 j q hq)
        have hc' := chainDropHead hc
        simpa [buildMinuteSeries, h] using hc'
  · intro stats hp g hg
    unfold normalize
    rw [hg, hp]
    rfl

/-- Claim C1 counterexample: two parseable events whose scores decrease from
minute 0 to minute 1 make both score columns of the `normalize` output
decrease; and an empty moves payload produces no empty series — `normalize`
fails with the `Minute` key error instead. -/
theorem minute_series_counterexample :
    (normalize statsOneTeam movesDecreasing).map MatchData.dfMinuteByMinute
      = Except.ok [⟨0, 5, 5⟩, ⟨1, 0, 0⟩]
    ∧ ¬ ((5 : Int) ≤ 0)
    ∧ normalize statsOneTeam [] = Except.error "KeyError: Minute" :=
  ⟨rfl, by decide, rfl⟩

/-- Witness for C1 at a one-event timeline and at a concrete empty-moves
payload. -/
theorem minute_series_shape_witness :
    List.Chain' pairLe
      ((buildMinuteSeries [rowMinuteZero]).map
        (fun r => (r.scoreLocal, r.scoreVisit)))
    ∧ normalize statsOneTeam [] = Except.error "KeyError: Minute" := by
  have hmax : ∀ (m : Int) (p : ScorePair),
      minuteMax [rowMinuteZero] m = some p → p = (2, 3) := by
    intro m p h
    by_cases hm : (0 : Int) = m
    · subst hm
      have h0 : minuteMax [rowMinuteZero] 0 = some (2, 3) := rfl
      rw [h0] at h
      exact (Option.some.inj h).symm
    · have hnone : minuteMax [rowMinuteZero] m = none := by
        unfold minuteMax
        have hf : ([rowMinuteZero].filter (fun r => r.minute == m)) = [] := by
          simp [rowMinuteZero, hm]
        rw [hf]
        rfl
      rw [hnone] at h
      exact Option.noConfusion h
  constructor
  · refine (minute_series_shape.1 [rowMinuteZero]).2 ?_ ?_
    · intro m p h
      rw [hmax m p h]
      exact ⟨by norm_num, by norm_num⟩
    · intro m1 m2 p1 p2 hle h1 h2
      rw [hmax m1 p1 h1, hmax m2 p2 h2]
      exact pairLe_refl _
  · exact minute_series_shape.2 statsOneTeam rfl _ rfl

/-- Claim C5: the end-to-end scenario — two teams, three events at minutes
2, 2, 5 with scores "5-0", "5-2", "10-4" — yields the six-minute series with
minutes 0-1 at (0,0), minutes 2-4 at the componentwise maximum (5,2) of the
two minute-2 events, and minute 5 at (10,4). -/
theorem end_to_end_minute_series :
    (normalize statsTwoTeams movesEndToEnd).map MatchData.dfMinuteByMinute
      = Except.ok
          [⟨0, 0, 0⟩, ⟨1, 0, 0⟩, ⟨2, 5, 2⟩, ⟨3, 5, 2⟩, ⟨4, 5, 2⟩, ⟨5, 10, 4⟩] :=
  rfl

end StatsEngine
